import Mathlib

/-!
Verification of the resumable, idempotent batch download pipeline of
`coDeiNject7/testingsong` (`src/j-y-scraper.py`, with the analogous
definitions of `src/mp3Script.py`).

The Python source is shallowly embedded below.  Pure helpers become Lean
functions on `String` / `List Char`; the process-wide mutable state
(`metadata_collection`, `last_index`, and the `metadata.json` file written by
`save_metadata`) becomes an explicit `RunState` record threaded through the
item processor; the external collaborators (yt-dlp, requests, mutagen) are
modelled by an `ExternalOutcome` record that fixes, for one item, which of the
external calls succeed.
-/

namespace Testingsong

/-- Config constant `SONGS_DIR = "songs"` (src/j-y-scraper.py line 15). -/
def SONGS_DIR : String := "songs"

/-- Config constant `BATCH_SIZE = 10` (src/j-y-scraper.py line 22):
push and release after every 10 songs. -/
def BATCH_SIZE : Nat := 10

/-! ## Identifier sanitizer (src/j-y-scraper.py lines 52-55) -/

/-- The filesystem-reserved characters replaced by `sanitize_filename`:
exactly the character class of the regex on line 54,
`[<>:"/\\|?*\n\r\t]`. -/
def isReserved (c : Char) : Bool :=
  c == '<' || c == '>' || c == ':' || c == '"' || c == '/' || c == '\\' ||
  c == '|' || c == '?' || c == '*' || c == '\n' || c == '\r' || c == '\t'

/-- Model of `unicodedata.normalize("NFKC", name)` at the level of a single
character: a finite table of representative NFKC compatibility mappings
(fullwidth punctuation to ASCII, no-break space to space, the `fi` ligature,
superscript two); every character outside the table is a fixed point.  The
real NFKC table is far larger, but every entry has this shape: a character is
rewritten to its compatibility decomposition independently of the rest of the
(already composed) string, and the rewritten-to characters are themselves
NFKC-normal. -/
def nfkcChar (c : Char) : List Char :=
  if c = '＜' then ['<']
  else if c = '：' then [':']
  else if c = '？' then ['?']
  else if c = '\u00A0' then [' ']
  else if c = 'ﬁ' then ['f', 'i']
  else if c = '²' then ['2']
  else [c]

/-- Model of `unicodedata.normalize("NFKC", name)` on a whole string
(as a character list). -/
def nfkcStr : List Char → List Char
  | [] => []
  | c :: cs => nfkcChar c ++ nfkcStr cs

/-- One step of `re.sub(r'[<>:"/\\|?*\n\r\t]', '_', normalized)`:
a reserved character becomes the placeholder `'_'`, anything else is kept. -/
def replaceChar (c : Char) : Char :=
  if isReserved c then '_' else c

/-- Model of `re.sub(r'[<>:"/\\|?*\n\r\t]', '_', normalized)`
(src/j-y-scraper.py line 54). -/
def replaceReserved (l : List Char) : List Char :=
  l.map replaceChar

/-- Whitespace in the sense of Python's `str.strip()` / `str.isspace()`:
the ASCII whitespace characters plus the no-break space (representative of
the Unicode space characters `str.strip()` also removes). -/
def isPySpace (c : Char) : Bool :=
  c == ' ' || c == '\t' || c == '\n' || c == '\r' || c == '\x0b' ||
  c == '\x0c' || c == '\u00A0'

/-- Model of Python's `.strip()`: remove leading and trailing whitespace. -/
def stripChars (l : List Char) : List Char :=
  List.rdropWhile isPySpace (List.dropWhile isPySpace l)

/-- Body of `sanitize_filename` (src/j-y-scraper.py lines 52-55, identical to
src/mp3Script.py lines 45-48) on a character list: NFKC-normalize, replace
the reserved characters with `'_'`, strip surrounding whitespace. -/
def sanitizeChars (l : List Char) : List Char :=
  stripChars (replaceReserved (nfkcStr l))

/-- `sanitize_filename(name)` (src/j-y-scraper.py lines 52-55). -/
def sanitize_filename (name : String) : String :=
  String.mk (sanitizeChars name.data)

/-- Pointwise relation used by claim C1: the two strings have the same length
and agree at every position, except that at some positions both hold a
(possibly different) reserved character. -/
def differOnlyInReserved : List Char → List Char → Bool
  | [], [] => true
  | c :: cs, d :: ds =>
      (c == d || (isReserved c && isReserved d)) && differOnlyInReserved cs ds
  | _, _ => false

/-! ## Data model: work items, ledger entries, run state -/

/-- One element of the `j-ysongs.json` work list, restricted to the fields the
pipeline reads: the `"song"` title and the `"youtube"` source locator
(src/j-y-scraper.py lines 104-105).  The remaining descriptive fields are
only copied into the embedded tags and the ledger entry verbatim. -/
structure WorkItem where
  song : String
  youtube : String
deriving DecidableEq, Repr

/-- One `MetadataEntry` of the resume ledger: the dict appended on
src/j-y-scraper.py lines 142-147 — the work item's fields plus the two
remote-reference fields `"file"` and `"album_art"`, both `None` until the
reconciliation step fills them.  An `Option String` value of `none` models
JSON `null` / an absent key. -/
structure SongEntry where
  song : String
  youtube : String
  file : Option String
  album_art : Option String
deriving DecidableEq, Repr

/-- The `entry_with_release` dict built on src/j-y-scraper.py lines 142-146:
a copy of the work item with `"file"` and `"album_art"` set to `None`. -/
def entryWithRelease (w : WorkItem) : SongEntry :=
  { song := w.song, youtube := w.youtube, file := none, album_art := none }

/-- The process-wide mutable state of src/j-y-scraper.py:
`metadata_collection` and `last_index` (lines 27-34), plus `saves`, the
sequence of `(songs, last_index)` snapshots that `save_metadata` has written
to `metadata.json`, in order (the last element is the current durable
state). -/
structure RunState where
  metadata_collection : List SongEntry
  last_index : Int
  saves : List (List SongEntry × Int)
deriving DecidableEq, Repr

/-- `save_metadata()` (src/j-y-scraper.py lines 45-50): rewrite
`metadata.json` with the full current collection and marker.  In the model
the written snapshot is appended to the `saves` history. -/
def save_metadata (st : RunState) : RunState :=
  { st with saves := st.saves ++ [(st.metadata_collection, st.last_index)] }

/-! ## Idempotency guard (src/j-y-scraper.py lines 57-64 and 109) -/

/-- `song_exists(title)` (src/j-y-scraper.py lines 57-58): does a file exist
at `os.path.join(SONGS_DIR, f"{title}.mp3")`?  The filesystem is modelled as
the list `fs` of existing paths. -/
def song_exists (fs : List String) (title : String) : Bool :=
  fs.contains (SONGS_DIR ++ "/" ++ title ++ ".mp3")

/-- Python truthiness of `song.get("file")`: `None` (or an absent key) and
the empty string are falsy, every other string is truthy. -/
def truthyOpt : Option String → Bool
  | none => false
  | some s => !(s == "")

/-- `already_in_metadata(title)` (src/j-y-scraper.py lines 60-64): some entry
of the collection has `song["song"] == title` and a truthy `song.get("file")`. -/
def already_in_metadata (col : List SongEntry) (title : String) : Bool :=
  col.any fun song => song.song == title && truthyOpt song.file

/-- The idempotency guard: the condition of src/j-y-scraper.py line 109,
`song_exists(safe_title) or already_in_metadata(song_name)`, with
`safe_title = sanitize_filename(song_name)` (line 106). -/
def is_done (fs : List String) (col : List SongEntry) (song_name : String) : Bool :=
  song_exists fs (sanitize_filename song_name) || already_in_metadata col song_name

/-! ## Item processor (src/j-y-scraper.py lines 69-96 and 101-153) -/

/-- Outcome of the external collaborator calls made while processing one
item: whether `yt-dlp --print-json` exits 0 (line 118-119), whether the
`yt-dlp -x` audio download succeeds (lines 125-128, `check=True` raises on
failure), whether the album-art fetch succeeds (lines 131-138, failure caught
locally), and whether the mutagen tag writing succeeds (lines 70-96, failure
caught inside `embed_metadata`). -/
structure ExternalOutcome where
  info_ok : Bool
  thumbnail : Option String
  download_ok : Bool
  art_ok : Bool
  embed_ok : Bool
deriving DecidableEq, Repr

/-- Model of `embed_metadata` (src/j-y-scraper.py lines 69-96): the mutagen
calls may fail, but the whole body is wrapped in `try/except Exception`,
which only prints the error — so the caller never observes an exception.
The inner `result` is the outcome of the tag writing; the `match` is the
`except` clause turning any error into a normal return. -/
def embed_metadata (embed_ok : Bool) : Except String Unit :=
  let result : Except String Unit :=
    if embed_ok then Except.ok () else Except.error "tag embedding failed"
  match result with
  | Except.ok _ => Except.ok ()
  | Except.error _ => Except.ok ()

/-- How one call of `download_audio_from_json` returned.  Every constructor
corresponds to a normal (non-raising) return of the Python function: the
outer `try/except Exception` (lines 103, 152-153) catches everything, so the
submitting future always reports success. -/
inductive ItemResult
  | skipped
  | infoFailed
  | errorCaught
  | completed
deriving DecidableEq, Repr

/-- `download_audio_from_json(song_entry, song_id)`
(src/j-y-scraper.py lines 101-153) as a state transition.

* Lines 109-113: if the idempotency guard fires, set `last_index = song_id`,
  persist, and return (skip path).
* Lines 117-121: if `yt-dlp --print-json` exits non-zero, return with no
  state change.
* Lines 125-128: the `yt-dlp -x` download runs with `check=True`; on failure
  the raised `CalledProcessError` is caught by the outer `except` (line 152)
  — no state change.
* Lines 130-138: the album-art fetch only writes a `.jpg` next to the mp3;
  its failure is caught locally and never touches the ledger state.
* Line 140: `embed_metadata` never raises (see `embed_metadata` above); if it
  somehow did, the outer `except` would abandon the item.
* Lines 142-149: append `entry_with_release`, set `last_index = song_id`,
  persist. -/
def download_audio_from_json (fs : List String) (st : RunState)
    (song_entry : WorkItem) (song_id : Int) (o : ExternalOutcome) :
    RunState × ItemResult :=
  if is_done fs st.metadata_collection song_entry.song then
    (save_metadata { st with last_index := song_id }, ItemResult.skipped)
  else if o.info_ok = false then
    (st, ItemResult.infoFailed)
  else if o.download_ok = false then
    (st, ItemResult.errorCaught)
  else
    match embed_metadata o.embed_ok with
    | Except.error _ => (st, ItemResult.errorCaught)
    | Except.ok _ =>
        (save_metadata
          { st with
            metadata_collection :=
              st.metadata_collection ++ [entryWithRelease song_entry],
            last_index := song_id },
        ItemResult.completed)

/-- A run of item completions in `as_completed` order
(src/j-y-scraper.py lines 269-270): each job is a work item together with its
input index and the outcome of its external calls; the jobs list order is the
order in which the futures complete, which under the thread pool need not be
the input-index order. -/
def runCompletions (fs : List String) (st : RunState)
    (jobs : List (WorkItem × Int × ExternalOutcome)) : RunState :=
  jobs.foldl (fun s j => (download_audio_from_json fs s j.1 j.2.1 j.2.2).1) st

/-- The `last_index` values of the successive `metadata.json` snapshots of a
run state, in the order they were written. -/
def savedIndices (st : RunState) : List Int :=
  st.saves.map Prod.snd

/-- Pairwise nondecreasing check on a list of marker values. -/
def nondecreasingInt : List Int → Bool
  | [] => true
  | [_] => true
  | a :: b :: t => decide (a ≤ b) && nondecreasingInt (b :: t)

/-! ## Batch coordinator (src/j-y-scraper.py lines 254-279) -/

/-- The `as_completed` loop of `download_songs_from_json`
(src/j-y-scraper.py lines 266-279), counting invocations of
`process_batch`: for each of the `n` completed futures, increment
`batch_counter` and run a cycle when it is a multiple of `BATCH_SIZE`
(lines 271-275); after the loop, run one final cycle if the counter is not a
multiple of `BATCH_SIZE` (lines 277-279).  Returns the number of
`process_batch` invocations. -/
def batchLoop : Nat → Nat → Nat → Nat
  | 0, batch_counter, cycles =>
      if batch_counter % BATCH_SIZE ≠ 0 then cycles + 1 else cycles
  | n + 1, batch_counter, cycles =>
      let bc := batch_counter + 1
      if bc % BATCH_SIZE = 0 then batchLoop n bc (cycles + 1)
      else batchLoop n bc cycles

/-- Number of `process_batch` invocations of one `download_songs_from_json`
run that awaits `n` futures.  The `n = 0` case is the early return on
src/j-y-scraper.py lines 259-261 (`if not songs_to_download: return`), which
skips the final-batch check. -/
def syncCycleCount (n : Nat) : Nat :=
  if n = 0 then 0 else batchLoop n 0 0

/-! ## Asset reconciler, mapping step (src/j-y-scraper.py lines 237-244) -/

/-- Python `asset_name[:-4]`: drop the last four characters
(the `.mp3` / `.jpg` extension). -/
def stripLast4 (s : String) : String :=
  String.mk (s.data.take (s.data.length - 4))

/-- Python `asset_name.endswith(ext)`. -/
def endsWithStr (s ext : String) : Bool :=
  ext.data.isSuffixOf s.data

/-- The inner loop of `process_batch` (src/j-y-scraper.py lines 238-244) for
one ledger entry: compute `safe_title = sanitize_filename(song_meta["song"])`
once, then walk the `(asset_name, url)` pairs of the RemoteAssetMap in order;
an `.mp3` asset whose extension-stripped, sanitized name equals `safe_title`
sets `song_meta["file"] = url`, a matching `.jpg` sets
`song_meta["album_art"] = url`. -/
def mapAssetsToEntry (song_meta : SongEntry)
    (asset_urls : List (String × String)) : SongEntry :=
  let safe_title := sanitize_filename song_meta.song
  asset_urls.foldl
    (fun meta p =>
      let asset_name := p.1
      let url := p.2
      let compare_name := sanitize_filename (stripLast4 asset_name)
      if endsWithStr asset_name ".mp3" && compare_name == safe_title then
        { meta with file := some url }
      else if endsWithStr asset_name ".jpg" && compare_name == safe_title then
        { meta with album_art := some url }
      else meta)
    song_meta

/-- The whole mapping step of `process_batch`
(src/j-y-scraper.py lines 237-244): apply `mapAssetsToEntry` to every entry
of the collection. -/
def process_batch_mapping (col : List SongEntry)
    (asset_urls : List (String × String)) : List SongEntry :=
  col.map fun m => mapAssetsToEntry m asset_urls

/-! ## The ledger file write (src/j-y-scraper.py lines 45-50) -/

/-- JSON string literal (escaping not modelled; the titles and URLs used in
the theorems below contain no characters needing escapes). -/
def jsonString (s : String) : String :=
  "\"" ++ s ++ "\""

/-- JSON rendering of a nullable string field. -/
def jsonOfOpt : Option String → String
  | none => "null"
  | some s => jsonString s

/-- JSON rendering of one ledger entry, with the key order of the dict built
on src/j-y-scraper.py lines 142-146. -/
def jsonOfEntry (e : SongEntry) : String :=
  "\x7b\"song\": " ++ jsonString e.song ++
  ", \"youtube\": " ++ jsonString e.youtube ++
  ", \"file\": " ++ jsonOfOpt e.file ++
  ", \"album_art\": " ++ jsonOfOpt e.album_art ++ "\x7d"

/-- The full text `json.dump` writes for the ledger object
`{"songs": [...], "last_index": i}` (src/j-y-scraper.py lines 47-50;
whitespace of `indent=2` not modelled). -/
def serializeLedger (songs : List SongEntry) (last_index : Int) : String :=
  "\x7b\"songs\": [" ++ String.intercalate ", " (songs.map jsonOfEntry) ++
  "], \"last_index\": " ++ toString last_index ++ "\x7d"

/-- The on-disk contents `metadata.json` can have if the process crashes at
some point of one `save_metadata` call (src/j-y-scraper.py lines 45-50).
`open(META_FILE, "w")` truncates the file in place (there is no temporary
file and no rename), then `json.dump` streams the serialized text into it, so
a crash can leave the old content (crash before the `open`) or any prefix of
the new text — including the empty file left right after the truncation. -/
def writeCrashStates (old new : String) : List String :=
  old :: (List.range (new.length + 1)).map fun k => String.mk (new.data.take k)

/-- Minimal well-formedness check for the ledger file: a JSON object text
must at least start with an opening brace and end with a closing brace.
Every text that fails this check is unparseable for `json.load`. -/
def parseableLedgerJson (s : String) : Bool :=
  s.data.head? == some '\x7b' && s.data.getLast? == some '\x7d'

/-! ## Helper lemmas about the sanitizer -/

/-- Every character produced by the NFKC table is itself NFKC-normal. -/
theorem nfkc_fix_output (c d : Char) (hd : d ∈ nfkcChar c) : nfkcChar d = [d] := by
  unfold nfkcChar at hd
  by_cases h1 : c = '＜'
  · rw [if_pos h1] at hd; simp at hd; subst hd; decide
  rw [if_neg h1] at hd
  by_cases h2 : c = '：'
  · rw [if_pos h2] at hd; simp at hd; subst hd; decide
  rw [if_neg h2] at hd
  by_cases h3 : c = '？'
  · rw [if_pos h3] at hd; simp at hd; subst hd; decide
  rw [if_neg h3] at hd
  by_cases h4 : c = ' '
  · rw [if_pos h4] at hd; simp at hd; subst hd; decide
  rw [if_neg h4] at hd
  by_cases h5 : c = 'ﬁ'
  · rw [if_pos h5] at hd
    simp at hd
    rcases hd with hd | hd <;> subst hd <;> decide
  rw [if_neg h5] at hd
  by_cases h6 : c = '²'
  · rw [if_pos h6] at hd; simp at hd; subst hd; decide
  rw [if_neg h6] at hd
  simp at hd
  subst hd
  unfold nfkcChar
  rw [if_neg h1, if_neg h2, if_neg h3, if_neg h4, if_neg h5, if_neg h6]

/-- Reserved characters are NFKC-fixed (none of them is in the table). -/
theorem reserved_nfkc_fix (c : Char) (h : isReserved c = true) : nfkcChar c = [c] := by
  unfold isReserved at h
  simp only [Bool.or_eq_true, beq_iff_eq] at h
  rcases h with ((((((((((h | h) | h) | h) | h) | h) | h) | h) | h) | h) | h) | h <;>
    subst h <;> decide

/-- Every character of the NFKC normalization of a string is NFKC-fixed. -/
theorem mem_nfkcStr_fix : ∀ (l : List Char) (c : Char), c ∈ nfkcStr l → nfkcChar c = [c]
  | [], c, h => by simp [nfkcStr] at h
  | a :: t, c, h => by
    simp only [nfkcStr, List.mem_append] at h
    rcases h with h | h
    · exact nfkc_fix_output a c h
    · exact mem_nfkcStr_fix t c h

/-- The output of the replacement step contains no reserved character. -/
theorem replaceChar_not_reserved (c : Char) : isReserved (replaceChar c) = false := by
  unfold replaceChar
  by_cases h : isReserved c = true
  · rw [if_pos h]; decide
  · rw [if_neg h]
    simp only [Bool.not_eq_true] at h
    exact h

/-- The replacement step preserves NFKC-fixedness. -/
theorem replaceChar_nfkc_fix (c : Char) (h : nfkcChar c = [c]) :
    nfkcChar (replaceChar c) = [replaceChar c] := by
  unfold replaceChar
  by_cases hr : isReserved c = true
  · rw [if_pos hr]; decide
  · rw [if_neg hr]; exact h

/-- NFKC normalization is the identity on a string of NFKC-fixed characters. -/
theorem nfkcStr_fixed : ∀ (l : List Char), (∀ c ∈ l, nfkcChar c = [c]) → nfkcStr l = l
  | [], _ => rfl
  | a :: t, h => by
    have ha : nfkcChar a = [a] := h a (by simp)
    calc nfkcStr (a :: t) = nfkcChar a ++ nfkcStr t := rfl
    _ = a :: t := by
        rw [ha, nfkcStr_fixed t fun c hc => h c (List.mem_cons_of_mem a hc)]
        rfl

/-- The replacement step is the identity on a string with no reserved
character. -/
theorem replaceReserved_fixed : ∀ (l : List Char),
    (∀ c ∈ l, isReserved c = false) → replaceReserved l = l
  | [], _ => rfl
  | a :: t, h => by
    have ha : isReserved a = false := h a (by simp)
    have hrc : replaceChar a = a := by
      unfold replaceChar; rw [ha]; simp
    calc replaceReserved (a :: t) = replaceChar a :: replaceReserved t := rfl
    _ = a :: t := by
        rw [hrc, replaceReserved_fixed t fun c hc => h c (List.mem_cons_of_mem a hc)]

/-- Membership is preserved from `dropWhile` back to the original list. -/
theorem mem_of_mem_dropWhile {p : Char → Bool} :
    ∀ (l : List Char) (c : Char), c ∈ List.dropWhile p l → c ∈ l
  | [], c, h => by simp at h
  | a :: t, c, h => by
    rw [List.dropWhile_cons] at h
    split at h
    · exact List.mem_cons_of_mem a (mem_of_mem_dropWhile t c h)
    · exact h

/-- Membership is preserved from the stripped string back to the original. -/
theorem mem_of_mem_stripChars (l : List Char) (c : Char) (h : c ∈ stripChars l) :
    c ∈ l := by
  unfold stripChars List.rdropWhile at h
  rw [List.mem_reverse] at h
  have h1 := mem_of_mem_dropWhile _ _ h
  rw [List.mem_reverse] at h1
  exact mem_of_mem_dropWhile _ _ h1

/-- Left-stripping the fully stripped string changes nothing: `stripChars`
only removes a suffix of `dropWhile isPySpace l`, whose head (if any) is
already a non-space. -/
theorem dropWhile_stripChars (p : Char → Bool) (l : List Char) :
    List.dropWhile p (List.rdropWhile p (List.dropWhile p l)) =
      List.rdropWhile p (List.dropWhile p l) := by
  obtain ⟨t, ht⟩ := List.dropWhile_suffix (l := (List.dropWhile p l).reverse) p
  rw [List.rdropWhile]
  cases hrev : (List.dropWhile p (List.dropWhile p l).reverse).reverse with
  | nil => simp
  | cons x xs =>
    have hAeq : (List.dropWhile p (List.dropWhile p l).reverse).reverse ++ t.reverse
        = List.dropWhile p l := by
      have h2 := congrArg List.reverse ht
      simpa using h2
    have hAx : List.dropWhile p l = x :: (xs ++ t.reverse) := by
      rw [← hAeq, hrev]; rfl
    have hne : List.dropWhile p l ≠ [] := by rw [hAx]; simp
    have hhead : (List.dropWhile p l).head hne = x := by simp [hAx]
    have hx : p x = false := by
      have h3 := List.head_dropWhile_not p l hne
      rwa [hhead] at h3
    rw [List.dropWhile_cons, hx]
    simp

/-- Stripping is idempotent. -/
theorem stripChars_idem (l : List Char) : stripChars (stripChars l) = stripChars l := by
  unfold stripChars
  rw [dropWhile_stripChars isPySpace l]
  exact List.rdropWhile_idempotent _ _

/-- Every character of a sanitized string is NFKC-fixed and non-reserved. -/
theorem sanitizeChars_good (l : List Char) (c : Char) (hc : c ∈ sanitizeChars l) :
    nfkcChar c = [c] ∧ isReserved c = false := by
  unfold sanitizeChars at hc
  have h1 : c ∈ replaceReserved (nfkcStr l) := mem_of_mem_stripChars _ _ hc
  unfold replaceReserved at h1
  rw [List.mem_map] at h1
  obtain ⟨d, hd, rfl⟩ := h1
  exact ⟨replaceChar_nfkc_fix d (mem_nfkcStr_fix l d hd), replaceChar_not_reserved d⟩

/-- Core idempotence of the sanitizer body. -/
theorem sanitizeChars_idem (l : List Char) :
    sanitizeChars (sanitizeChars l) = sanitizeChars l := by
  have h1 : nfkcStr (sanitizeChars l) = sanitizeChars l :=
    nfkcStr_fixed _ fun c hc => (sanitizeChars_good l c hc).1
  have h2 : replaceReserved (sanitizeChars l) = sanitizeChars l :=
    replaceReserved_fixed _ fun c hc => (sanitizeChars_good l c hc).2
  show stripChars (replaceReserved (nfkcStr (sanitizeChars l))) = sanitizeChars l
  rw [h1, h2]
  show stripChars (stripChars (replaceReserved (nfkcStr l))) = _
  exact stripChars_idem _

/-- Strings related by `differOnlyInReserved` have the same replacement image
after normalization: equal positions contribute equal characters, and
reserved positions contribute `'_'` on both sides. -/
theorem differ_replace : ∀ (a b : List Char), differOnlyInReserved a b = true →
    replaceReserved (nfkcStr a) = replaceReserved (nfkcStr b)
  | [], [], _ => rfl
  | [], _ :: _, h => by simp [differOnlyInReserved] at h
  | _ :: _, [], h => by simp [differOnlyInReserved] at h
  | c :: cs, d :: ds, h => by
    simp only [differOnlyInReserved, Bool.and_eq_true, Bool.or_eq_true,
      beq_iff_eq] at h
    obtain ⟨hcd, hrest⟩ := h
    have htail := differ_replace cs ds hrest
    show replaceReserved (nfkcChar c ++ nfkcStr cs)
        = replaceReserved (nfkcChar d ++ nfkcStr ds)
    unfold replaceReserved at htail ⊢
    rw [List.map_append, List.map_append]
    rcases hcd with hcd | ⟨hc, hd⟩
    · subst hcd
      rw [htail]
    · have h1 : replaceChar c = '_' := by unfold replaceChar; rw [hc]; simp
      have h2 : replaceChar d = '_' := by unfold replaceChar; rw [hd]; simp
      rw [reserved_nfkc_fix c hc, reserved_nfkc_fix d hd, htail]
      simp [h1, h2]

/-! ## Further helper lemmas -/

/-- The `try/except` inside `embed_metadata` (src/j-y-scraper.py lines 70-96)
swallows every failure: the call always returns normally, whether or not the
tag writing succeeded. -/
theorem embed_never_raises (b : Bool) : embed_metadata b = Except.ok () := by
  cases b <;> rfl

/-- Python truthiness of the `"file"` field, spelled out. -/
theorem truthy_iff (o : Option String) :
    truthyOpt o = true ↔ o ≠ none ∧ o ≠ some "" := by
  cases o with
  | none => simp [truthyOpt]
  | some s => simp [truthyOpt]

/-- Closed form of the batch counting loop: starting from counter value `c`
and `cycles` already-run cycles, awaiting `n` more futures runs the in-loop
cycles at every multiple of `BATCH_SIZE` crossed, plus the final cycle when
the final counter is no multiple of `BATCH_SIZE`. -/
theorem batchLoop_formula : ∀ (n c cy : Nat),
    batchLoop n c cy + c / BATCH_SIZE =
      cy + (c + n) / BATCH_SIZE + (if (c + n) % BATCH_SIZE = 0 then 0 else 1)
  | 0, c, cy => by
    simp only [batchLoop, BATCH_SIZE]
    split <;> split <;> omega
  | n + 1, c, cy => by
    simp only [batchLoop, BATCH_SIZE]
    split
    · have H := batchLoop_formula n (c + 1) (cy + 1)
      simp only [BATCH_SIZE] at H
      split at H <;> split <;> omega
    · have H := batchLoop_formula n (c + 1) cy
      simp only [BATCH_SIZE] at H
      split at H <;> split <;> omega

/-! ## Claim theorems -/

/-- C1: the identifier sanitizer is deterministic and total.  Totality is the
totality of the Lean function `sanitize_filename`; determinism of repeated
calls is the first conjunct; two titles that are Unicode-equivalent (same
NFKC normal form) sanitize identically (second conjunct); two titles that
differ only in the reserved characters the sanitizer replaces, and are
otherwise equal, sanitize identically (third conjunct). -/
theorem sanitize_deterministic_total (s₁ s₂ t : String) :
    sanitize_filename t = sanitize_filename t ∧
    (nfkcStr s₁.data = nfkcStr s₂.data →
      sanitize_filename s₁ = sanitize_filename s₂) ∧
    (differOnlyInReserved s₁.data s₂.data = true →
      sanitize_filename s₁ = sanitize_filename s₂) := by
  refine ⟨rfl, ?_, ?_⟩
  · intro h
    unfold sanitize_filename sanitizeChars
    rw [h]
  · intro h
    unfold sanitize_filename sanitizeChars
    rw [differ_replace _ _ h]

/-- Witness for C1 at concrete inputs: the ligature title `"ﬁsh"` is
NFKC-equivalent to `"fish"` and sanitizes identically; `"a<b"` and `"a|b"`
differ only in reserved characters and sanitize identically. -/
theorem sanitize_deterministic_total_witness :
    (nfkcStr "ﬁsh".data = nfkcStr "fish".data ∧
      sanitize_filename "ﬁsh" = sanitize_filename "fish") ∧
    (differOnlyInReserved "a<b".data "a|b".data = true ∧
      sanitize_filename "a<b" = sanitize_filename "a|b") :=
  ⟨⟨by decide, (sanitize_deterministic_total "ﬁsh" "fish" "x").2.1 (by decide)⟩,
   ⟨by decide, (sanitize_deterministic_total "a<b" "a|b" "x").2.2 (by decide)⟩⟩

/-- C9: the identifier sanitizer is idempotent: its output contains no
reserved character, is NFKC-normal, and carries no leading or trailing
whitespace, so a second application changes nothing. -/
theorem sanitize_filename_idempotent (s : String) :
    sanitize_filename (sanitize_filename s) = sanitize_filename s := by
  unfold sanitize_filename
  show String.mk (sanitizeChars (String.mk (sanitizeChars s.data)).data) = _
  have hdata : (String.mk (sanitizeChars s.data)).data = sanitizeChars s.data := rfl
  rw [hdata, sanitizeChars_idem]

/-- C4: batch trigger correctness.  A run awaiting `k * BATCH_SIZE + r`
futures (`r < BATCH_SIZE`), with an empty starting ledger so that every input
item is submitted, invokes `process_batch` exactly `k` times inside the loop
plus one final time when `r > 0`. -/
theorem batch_trigger_correct (k r : Nat) (h : r < BATCH_SIZE) :
    syncCycleCount (k * BATCH_SIZE + r) = k + (if 0 < r then 1 else 0) := by
  unfold syncCycleCount
  by_cases h0 : k * BATCH_SIZE + r = 0
  · rw [if_pos h0]
    simp only [BATCH_SIZE] at h0 h ⊢
    split <;> omega
  · rw [if_neg h0]
    have H := batchLoop_formula (k * BATCH_SIZE + r) 0 0
    simp only [BATCH_SIZE] at H h h0 ⊢
    split at H <;> split <;> omega

/-- Witness for C4 at the spec's end-to-end scenario: 23 items with batch
size 10 trigger exactly 3 synchronization cycles. -/
theorem batch_trigger_correct_witness :
    3 < BATCH_SIZE ∧ syncCycleCount (2 * BATCH_SIZE + 3) = 3 :=
  ⟨by decide, (batch_trigger_correct 2 3 (by decide)).trans (by decide)⟩

/-- C2 (evaluation at the failing input): in a single run on an empty ledger
in which the item with input index 5 completes before the item with input
index 3 (which the thread pool permits), the successive `metadata.json`
snapshots carry `last_index` values `[5, 3]` — the marker decreases across
the second save, because `download_audio_from_json` unconditionally
overwrites `last_index` with the completing item's own index (line 148). -/
theorem last_index_decreases_on_out_of_order_run :
    savedIndices (runCompletions [] ⟨[], -1, []⟩
        [(⟨"Song F", "uf"⟩, 5, ⟨true, none, true, true, true⟩),
         (⟨"Song D", "ud"⟩, 3, ⟨true, none, true, true, true⟩)]) = [5, 3] ∧
    nondecreasingInt (savedIndices (runCompletions [] ⟨[], -1, []⟩
        [(⟨"Song F", "uf"⟩, 5, ⟨true, none, true, true, true⟩),
         (⟨"Song D", "ud"⟩, 3, ⟨true, none, true, true, true⟩)])) = false := by
  decide

/-- C3 (counterexample): an item whose tag-embed step fails
(`embed_ok = false`) is NOT abandoned: because `embed_metadata` catches its
own exceptions (lines 95-96), the processor still appends the MetadataEntry
and advances `last_index` to the item's index. -/
theorem embed_failure_still_records_item :
    (download_audio_from_json [] ⟨[], -1, []⟩ ⟨"Song A", "uY"⟩ 0
        ⟨true, some "thumb", true, true, false⟩).1 =
      ⟨[entryWithRelease ⟨"Song A", "uY"⟩], 0,
        [([entryWithRelease ⟨"Song A", "uY"⟩], 0)]⟩ := by
  decide

/-- C3 (amended): for an item the guard has not marked done, a failure of the
fetch step — the info call exiting non-zero, or the audio download raising —
is caught and the item is abandoned with no ledger entry, no progress
advancement and no persist; but a failure of the tag-embed step is swallowed
inside `embed_metadata`, and the item still completes: its entry is appended
and `last_index` is advanced regardless of `embed_ok`. -/
theorem fetch_failure_abandons_item (fs : List String) (st : RunState)
    (w : WorkItem) (song_id : Int) (o : ExternalOutcome)
    (hnd : is_done fs st.metadata_collection w.song = false) :
    (o.info_ok = false →
      download_audio_from_json fs st w song_id o = (st, ItemResult.infoFailed)) ∧
    (o.info_ok = true → o.download_ok = false →
      download_audio_from_json fs st w song_id o = (st, ItemResult.errorCaught)) ∧
    (o.info_ok = true → o.download_ok = true →
      (download_audio_from_json fs st w song_id o).1.metadata_collection =
          st.metadata_collection ++ [entryWithRelease w] ∧
        (download_audio_from_json fs st w song_id o).1.last_index = song_id) := by
  unfold download_audio_from_json
  rw [if_neg (by simp [hnd])]
  refine ⟨?_, ?_, ?_⟩
  · intro h1
    rw [if_pos h1]
  · intro h1 h2
    rw [if_neg (by simp [h1]), if_pos h2]
  · intro h1 h2
    rw [if_neg (by simp [h1]), if_neg (by simp [h2]), embed_never_raises]
    exact ⟨rfl, rfl⟩

/-- Witness for C3 (amended) at a concrete input: a fresh item whose info
fetch fails leaves the run state untouched. -/
theorem fetch_failure_abandons_item_witness :
    is_done [] (RunState.mk [] (-1) []).metadata_collection "Song B" = false ∧
    download_audio_from_json [] ⟨[], -1, []⟩ ⟨"Song B", "uB"⟩ 2
        ⟨false, none, true, true, true⟩ = (⟨[], -1, []⟩, ItemResult.infoFailed) :=
  ⟨by decide,
    (fetch_failure_abandons_item [] ⟨[], -1, []⟩ ⟨"Song B", "uB"⟩ 2
        ⟨false, none, true, true, true⟩ (by decide)).1 rfl⟩

/-- C5 (counterexample): the spec's reconciliation example is wrong about the
sanitizer: spaces are not reserved, so the asset `"My Song.mp3"` has compare
name `"My Song"`, which does not match an entry whose title sanitizes to
`"My_Song"` — the mapping step leaves that entry's `file` field null instead
of setting it to `urlA`. -/
theorem reconciliation_spec_example_false :
    sanitize_filename "My_Song" = "My_Song" ∧
    (mapAssetsToEntry ⟨"My_Song", "", none, none⟩
        [("My Song.mp3", "urlA"), ("My Song.jpg", "urlB")]).file ≠ some "urlA" := by
  decide

/-- C5 (amended): reconciliation exactness holds with the matching sanitized
name `"My Song"`: for a ledger entry whose title sanitizes to `"My Song"`,
the mapping step sets `file` to `urlA` from asset `"My Song.mp3"` and
`album_art` to `urlB` from `"My Song.jpg"`, and the unrelated asset
`"Other Song.mp3"` does not affect the entry. -/
theorem reconciliation_exactness (e : SongEntry)
    (h : sanitize_filename e.song = "My Song") :
    (mapAssetsToEntry e
        [("My Song.mp3", "urlA"), ("My Song.jpg", "urlB"),
         ("Other Song.mp3", "urlC")]).file = some "urlA" ∧
    (mapAssetsToEntry e
        [("My Song.mp3", "urlA"), ("My Song.jpg", "urlB"),
         ("Other Song.mp3", "urlC")]).album_art = some "urlB" := by
  have c1 : (endsWithStr "My Song.mp3" ".mp3" &&
      (sanitize_filename (stripLast4 "My Song.mp3") == "My Song")) = true := by decide
  have c2a : (endsWithStr "My Song.jpg" ".mp3" &&
      (sanitize_filename (stripLast4 "My Song.jpg") == "My Song")) = false := by decide
  have c2b : (endsWithStr "My Song.jpg" ".jpg" &&
      (sanitize_filename (stripLast4 "My Song.jpg") == "My Song")) = true := by decide
  have c3a : (endsWithStr "Other Song.mp3" ".mp3" &&
      (sanitize_filename (stripLast4 "Other Song.mp3") == "My Song")) = false := by decide
  have c3b : (endsWithStr "Other Song.mp3" ".jpg" &&
      (sanitize_filename (stripLast4 "Other Song.mp3") == "My Song")) = false := by decide
  unfold mapAssetsToEntry
  rw [h]
  simp only [List.foldl, c1, c2a, c2b, c3a, c3b, if_true, if_false]
  exact ⟨rfl, rfl⟩

/-- Witness for C5 (amended) at the concrete entry titled `"My Song"`. -/
theorem reconciliation_exactness_witness :
    sanitize_filename (SongEntry.mk "My Song" "" none none).song = "My Song" ∧
    (mapAssetsToEntry ⟨"My Song", "", none, none⟩
        [("My Song.mp3", "urlA"), ("My Song.jpg", "urlB"),
         ("Other Song.mp3", "urlC")]).file = some "urlA" :=
  ⟨by decide, (reconciliation_exactness ⟨"My Song", "", none, none⟩ (by decide)).1⟩

/-- C6 (counterexample): the guard follows Python truthiness, not
null-checking.  An entry with the same title and the non-null artifact
reference `""` does not make the guard fire, so the claimed equivalence is
false at this input. -/
theorem guard_truthiness_counterexample :
    ¬ (is_done [] [⟨"t", "u", some "", none⟩] "t" = true ↔
        ((SONGS_DIR ++ "/" ++ sanitize_filename "t" ++ ".mp3") ∈ ([] : List String) ∨
          ∃ e ∈ [(⟨"t", "u", some "", none⟩ : SongEntry)],
            e.song = "t" ∧ e.file ≠ none)) := by
  decide

/-- C6 (amended): the idempotency guard returns true iff a local artifact
exists at the canonical path derived from the sanitized title, or some ledger
entry has the same (unsanitized) title and a truthy artifact reference —
non-null AND non-empty, per Python truthiness of `song.get("file")`. -/
theorem is_done_iff (fs : List String) (col : List SongEntry) (title : String) :
    is_done fs col title = true ↔
      (SONGS_DIR ++ "/" ++ sanitize_filename title ++ ".mp3") ∈ fs ∨
        ∃ e ∈ col, e.song = title ∧ e.file ≠ none ∧ e.file ≠ some "" := by
  unfold is_done song_exists already_in_metadata
  simp only [Bool.or_eq_true, List.any_eq_true, Bool.and_eq_true, beq_iff_eq,
    truthy_iff, List.elem_iff]

/-- Witness for C6 (amended): with the canonical artifact on disk the guard
fires. -/
theorem is_done_iff_witness :
    is_done ["songs/Song E.mp3"] ([] : List SongEntry) "Song E" = true :=
  (is_done_iff ["songs/Song E.mp3"] [] "Song E").mpr (Or.inl (by decide))

/-- C7: for an item the guard reports already-done, the processor skips it
immediately and returns normally (`ItemResult.skipped`; the function cannot
raise), advances `last_index` to the item's index, and persists the
ledger — the new snapshot `(entries, song_id)` is written to disk. -/
theorem skip_path_reports_success (fs : List String) (st : RunState)
    (w : WorkItem) (song_id : Int) (o : ExternalOutcome)
    (h : is_done fs st.metadata_collection w.song = true) :
    download_audio_from_json fs st w song_id o =
      (⟨st.metadata_collection, song_id,
          st.saves ++ [(st.metadata_collection, song_id)]⟩, ItemResult.skipped) := by
  unfold download_audio_from_json
  rw [if_pos h]
  rfl

/-- Witness for C7: a concrete skip (artifact already on disk). -/
theorem skip_path_reports_success_witness :
    is_done ["songs/Song A.mp3"] (RunState.mk [] (-1) []).metadata_collection
        "Song A" = true ∧
    download_audio_from_json ["songs/Song A.mp3"] ⟨[], -1, []⟩ ⟨"Song A", "u"⟩ 5
        ⟨true, none, true, true, true⟩ = (⟨[], 5, [([], 5)]⟩, ItemResult.skipped) :=
  ⟨by decide,
    skip_path_reports_success ["songs/Song A.mp3"] ⟨[], -1, []⟩ ⟨"Song A", "u"⟩ 5
      ⟨true, none, true, true, true⟩ (by decide)⟩

/-- C8 (evaluation at the failing input): `save_metadata` writes
`metadata.json` in place — `open(META_FILE, "w")` truncates the file before
`json.dump` writes the new text, with no temporary file and no rename.  A
crash immediately after the truncation leaves the empty file: a reachable
crash state that is neither the old content nor a parseable ledger file. -/
theorem save_metadata_not_crash_atomic :
    "" ∈ writeCrashStates (serializeLedger [] (-1))
        (serializeLedger [⟨"Song A", "u", none, none⟩] 0) ∧
    "" ≠ serializeLedger [] (-1) ∧
    parseableLedgerJson "" = false := by
  decide

/-- C10: the skip path has no side effect on the ledger's entry collection:
no entry is appended or modified; the in-memory state passed to the persist
differs from the incoming state only in the scalar `last_index`. -/
theorem skip_path_frame (fs : List String) (st : RunState)
    (w : WorkItem) (song_id : Int) (o : ExternalOutcome)
    (h : is_done fs st.metadata_collection w.song = true) :
    (download_audio_from_json fs st w song_id o).1.metadata_collection =
        st.metadata_collection ∧
    (download_audio_from_json fs st w song_id o).1 =
        save_metadata { st with last_index := song_id } := by
  unfold download_audio_from_json
  rw [if_pos h]
  exact ⟨rfl, rfl⟩

/-- Witness for C10: a concrete skip (entry already in the ledger with a
truthy reference) leaves the collection unchanged. -/
theorem skip_path_frame_witness :
    is_done [] (RunState.mk [⟨"Song C", "uc", some "urlC", none⟩] 1
        []).metadata_collection "Song C" = true ∧
    (download_audio_from_json [] ⟨[⟨"Song C", "uc", some "urlC", none⟩], 1, []⟩
        ⟨"Song C", "uc"⟩ 7 ⟨true, none, true, true, true⟩).1.metadata_collection =
      [⟨"Song C", "uc", some "urlC", none⟩] :=
  ⟨by decide,
    (skip_path_frame [] ⟨[⟨"Song C", "uc", some "urlC", none⟩], 1, []⟩
      ⟨"Song C", "uc"⟩ 7 ⟨true, none, true, true, true⟩ (by decide)).1⟩

end Testingsong
